import Mathlib

/-!
# Aurum Finance backend — verification of the spec against the code

Shallow embedding of `backend/server.py` (Aurum-Finance-Web): the data model,
the recurring-transaction materializer (`process_recurring_transactions`),
the analytics aggregator (`get_dashboard_summary`, `get_cashflow_report`,
`get_spending_report`) and the per-entity CRUD operations, together with
theorems settling the frozen claims about them.

Modelling conventions:
* monetary amounts (Python `float`) are embedded as `ℚ`;
* Python `datetime.date` is a proleptic-Gregorian calendar date; `datetime`
  is a date plus a time-of-day component;
* MongoDB collections are lists of records; `find` is `List.filter`,
  `find_one` is `List.find?`, `insert_one` appends, `update_one`/`delete_one`
  act on the first matching record;
* Python exceptions (`HTTPException`, `ZeroDivisionError`) are `Except`/`Option`
  error results.
-/

namespace Aurum

/-- Proleptic Gregorian calendar date, as Python `datetime.date`. -/
structure Date where
  year : Nat
  month : Nat
  day : Nat
deriving DecidableEq

/-- Day count of a civil date (days since 0000-03-01, valid for `year ≥ 1`),
the standard civil-calendar day-numbering algorithm.  Python's
`date` subtraction and ordering agree with this numbering on valid dates. -/
def Date.toDays (d : Date) : Nat :=
  let y := if d.month ≤ 2 then d.year - 1 else d.year
  let era := y / 400
  let yoe := y - era * 400
  let mp := if 2 < d.month then d.month - 3 else d.month + 9
  let doy := (153 * mp + 2) / 5 + (d.day - 1)
  let doe := yoe * 365 + yoe / 4 - yoe / 100 + doy
  era * 146097 + doe

/-- Inverse of `Date.toDays` on valid day counts (standard civil-from-days
algorithm); used for Python `date - timedelta(days = n)` arithmetic. -/
def Date.fromDays (z : Nat) : Date :=
  let era := z / 146097
  let doe := z % 146097
  let yoe := (doe - doe / 1460 + doe / 36524 - doe / 146096) / 365
  let y := yoe + era * 400
  let doy := doe - (365 * yoe + yoe / 4 - yoe / 100)
  let mp := (5 * doy + 2) / 153
  let dd := doy - (153 * mp + 2) / 5 + 1
  let m := if mp < 10 then mp + 3 else mp - 9
  { year := if m ≤ 2 then y + 1 else y, month := m, day := dd }

/-- Python `(a - b).days` for dates. -/
def Date.daysDiff (a b : Date) : Int :=
  (a.toDays : Int) - (b.toDays : Int)

/-- Python `a < b` on dates (calendar order, via the day numbering). -/
def Date.ltb (a b : Date) : Bool :=
  decide (a.toDays < b.toDays)

/-- Python `datetime`: a date plus a time-of-day (an abstract ordered
sub-day component; `tod = 0` is midnight, `datetime.min.time()`). -/
structure DateTime where
  date : Date
  tod : Nat
deriving DecidableEq

/-- Python `a <= b` on datetimes (date order, then time of day). -/
def DateTime.leb (a b : DateTime) : Bool :=
  decide (a.date.toDays < b.date.toDays ∨
    (a.date.toDays = b.date.toDays ∧ a.tod ≤ b.tod))

/-- `datetime.combine(d, datetime.min.time())`: midnight of a date. -/
def DateTime.midnight (d : Date) : DateTime := ⟨d, 0⟩

/-- `TransactionType` enum. -/
inductive TransactionType where
  | income
  | expense
deriving DecidableEq

/-- `TransactionCategory` enum. -/
inductive TransactionCategory where
  | salary
  | freelance
  | investment
  | housing
  | food
  | transport
  | entertainment
  | healthcare
  | education
  | shopping
  | utilities
  | other
deriving DecidableEq

/-- The string value of a `TransactionCategory` (the enum is a `str` enum). -/
def categoryToString : TransactionCategory → String
  | .salary => "salary"
  | .freelance => "freelance"
  | .investment => "investment"
  | .housing => "housing"
  | .food => "food"
  | .transport => "transport"
  | .entertainment => "entertainment"
  | .healthcare => "healthcare"
  | .education => "education"
  | .shopping => "shopping"
  | .utilities => "utilities"
  | .other => "other"

/-- `Transaction` model (`server.py`). -/
structure Transaction where
  id : String
  user_id : String
  type : TransactionType
  amount : ℚ
  description : String
  category : TransactionCategory
  date : DateTime
  is_recurring : Bool
  frequency : Option String
  recurring_start_date : Option DateTime
  created_at : DateTime
deriving DecidableEq

/-! ## Recurring Transaction Materializer (`process_recurring_transactions`) -/

/-- The monthly duplicate guard: `find_one` for a non-recurring transaction
of the same user with the template's (unsuffixed) `description` and `amount`,
dated within `[datetime(y, m, 1), datetime(y, m, today.day)]`. -/
def monthlyExists (dbNow : List Transaction) (tmpl : Transaction)
    (today : Date) : Bool :=
  dbNow.any fun t =>
    t.user_id == tmpl.user_id &&
    t.description == tmpl.description &&
    t.amount == tmpl.amount &&
    DateTime.leb ⟨⟨today.year, today.month, 1⟩, 0⟩ t.date &&
    DateTime.leb t.date ⟨⟨today.year, today.month, today.day⟩, 0⟩ &&
    t.is_recurring == false

/-- The yearly duplicate guard: same query with the date range
`[datetime(y, 1, 1), datetime(y, 12, 31)]` of today's year. -/
def yearlyExists (dbNow : List Transaction) (tmpl : Transaction)
    (today : Date) : Bool :=
  dbNow.any fun t =>
    t.user_id == tmpl.user_id &&
    t.description == tmpl.description &&
    t.amount == tmpl.amount &&
    DateTime.leb ⟨⟨today.year, 1, 1⟩, 0⟩ t.date &&
    DateTime.leb t.date ⟨⟨today.year, 12, 31⟩, 0⟩ &&
    t.is_recurring == false

/-- The new transaction instance built for a qualifying template.  In the
source `id` is a fresh uuid4 and `created_at` the wall clock at creation;
no claim inspects either, and they are modelled by placeholder values. -/
def newInstance (today : Date) (tmpl : Transaction) : Transaction :=
  { id := ""
    user_id := tmpl.user_id
    type := tmpl.type
    amount := tmpl.amount
    description := tmpl.description ++ " (Recurring)"
    category := tmpl.category
    date := DateTime.midnight today
    is_recurring := false
    frequency := none
    recurring_start_date := none
    created_at := DateTime.midnight today }

/-- One iteration of the materializer loop: the state is the live
collection plus the processed count.  A template without
`recurring_start_date` is skipped; otherwise the frequency policy decides
whether to insert a new instance (weekly has no duplicate guard;
monthly/yearly consult `monthlyExists`/`yearlyExists` against the live
collection, which includes instances inserted earlier in the sweep). -/
def processTemplate (today : Date) (st : List Transaction × Nat)
    (tmpl : Transaction) : List Transaction × Nat :=
  match tmpl.recurring_start_date with
  | none => st
  | some rsd =>
    let start := rsd.date
    let should_create : Bool :=
      if tmpl.frequency == some "weekly" then
        decide (0 ≤ Date.daysDiff today start ∧
          Date.daysDiff today start % 7 = 0)
      else if tmpl.frequency == some "monthly" then
        today.day == start.day && Date.ltb start today &&
          !(monthlyExists st.1 tmpl today)
      else if tmpl.frequency == some "yearly" then
        today.month == start.month && today.day == start.day &&
          decide (start.year < today.year) && !(yearlyExists st.1 tmpl today)
      else false
    if should_create then (st.1 ++ [newInstance today tmpl], st.2 + 1) else st

/-- `process_recurring_transactions`: scan the templates
(`is_recurring = true`) of the collection as fetched at the start of the
sweep, threading the live collection through the loop; returns the final
collection and the processed count reported to the caller. -/
def processRecurring (today : Date) (db : List Transaction) :
    List Transaction × Nat :=
  (db.filter (·.is_recurring)).foldl (processTemplate today) (db, 0)

/-- Stable insertion step: place `x` before the first element `y` with
`le x y`. -/
def pyInsert (le : α → α → Bool) (x : α) : List α → List α
  | [] => [x]
  | y :: ys => if le x y then x :: y :: ys else y :: pyInsert le x ys

/-- Stable sort by the boolean comparator `le` (models Python's stable
`sorted` and MongoDB's `sort`): insertion sort. -/
def pySorted (le : α → α → Bool) : List α → List α
  | [] => []
  | x :: xs => pyInsert le x (pySorted le xs)

/-! ## Entity models and CRUD layer -/

/-- `Asset` model. -/
structure Asset where
  id : String
  user_id : String
  description : String
  current_value : ℚ
  created_at : DateTime
  updated_at : DateTime
deriving DecidableEq

/-- `AssetCreate` request body. -/
structure AssetCreate where
  description : String
  current_value : ℚ
deriving DecidableEq

/-- `Liability` model. -/
structure Liability where
  id : String
  user_id : String
  description : String
  amount_owed : ℚ
  created_at : DateTime
  updated_at : DateTime
deriving DecidableEq

/-- `LiabilityCreate` request body. -/
structure LiabilityCreate where
  description : String
  amount_owed : ℚ
deriving DecidableEq

/-- `SavingsGoal` model. -/
structure SavingsGoal where
  id : String
  user_id : String
  goal_name : String
  target_amount : ℚ
  current_amount : ℚ
  created_at : DateTime
  updated_at : DateTime
deriving DecidableEq

/-- `SavingsGoalCreate` request body. -/
structure SavingsGoalCreate where
  goal_name : String
  target_amount : ℚ
  current_amount : ℚ
deriving DecidableEq

/-- HTTP error result of an endpoint (the `HTTPException` status code). -/
abbrev HttpError := Nat

/-- Replace the first element satisfying `p` by its image under `f`
(MongoDB `update_one` on a list-modelled collection). -/
def updateFirst (p : α → Bool) (f : α → α) : List α → List α
  | [] => []
  | x :: xs => if p x then f x :: xs else x :: updateFirst p f xs

/-- Remove the first element satisfying `p` (MongoDB `delete_one`). -/
def removeFirst (p : α → Bool) : List α → List α
  | [] => []
  | x :: xs => if p x then xs else x :: removeFirst p xs

/-- The common shape of the PUT endpoints (`update_asset`,
`update_liability`, `update_savings_goal`): `update_one` with `{"$set": …}`
on the query `q` (id + owner); 404 if `matched_count == 0`; then `find_one`
re-reads the updated record and returns it with the new collection state.
The source would crash if the re-read found nothing; that unreachable
branch is a 500. -/
def mongoUpdate {α : Type} (q : α → Bool) (setf : α → α) (db : List α) :
    Except HttpError (List α × α) :=
  if (db.find? q).isSome then
    match (updateFirst q setf db).find? q with
    | some a => .ok (updateFirst q setf db, a)
    | none => .error 500
  else .error 404

/-- `PUT /assets/{asset_id}` (`update_asset`): the `$set` document is the
request body plus a refreshed `updated_at`. -/
def updateAsset (db : List Asset) (uid aid : String) (d : AssetCreate)
    (now : DateTime) : Except HttpError (List Asset × Asset) :=
  mongoUpdate (fun a => a.id == aid && a.user_id == uid)
    (fun a =>
      { a with
        description := d.description
        current_value := d.current_value
        updated_at := now }) db

/-- `PUT /liabilities/{liability_id}` (`update_liability`). -/
def updateLiability (db : List Liability) (uid lid : String)
    (d : LiabilityCreate) (now : DateTime) :
    Except HttpError (List Liability × Liability) :=
  mongoUpdate (fun a => a.id == lid && a.user_id == uid)
    (fun a =>
      { a with
        description := d.description
        amount_owed := d.amount_owed
        updated_at := now }) db

/-- `PUT /savings-goals/{goal_id}` (`update_savings_goal`). -/
def updateSavingsGoal (db : List SavingsGoal) (uid gid : String)
    (d : SavingsGoalCreate) (now : DateTime) :
    Except HttpError (List SavingsGoal × SavingsGoal) :=
  mongoUpdate (fun a => a.id == gid && a.user_id == uid)
    (fun a =>
      { a with
        goal_name := d.goal_name
        target_amount := d.target_amount
        current_amount := d.current_amount
        updated_at := now }) db

/-- Query parameters of `GET /transactions`. -/
structure TxQuery where
  start_date : Option DateTime
  end_date : Option DateTime
  category : Option String
  search_query : Option String

/-- The `search_query` filter: the source applies the query string as a
case-insensitive regex (`$regex` with option `i`) on the description; it is
modelled here for plain queries as a case-insensitive substring test. -/
def descMatches (q d : String) : Bool :=
  decide (q.toLower.toList <:+: d.toLower.toList)

/-- The query filter of `GET /transactions`: owner plus the optional
date-range / category / search filters. -/
def txFilter (uid : String) (q : TxQuery) (db : List Transaction) :
    List Transaction :=
  (db.filter fun t =>
      t.user_id == uid &&
      (match q.start_date with
        | none => true
        | some s => DateTime.leb s t.date) &&
      (match q.end_date with
        | none => true
        | some e => DateTime.leb t.date e) &&
      (match q.category with
        | none => true
        | some c => categoryToString t.category == c) &&
      (match q.search_query with
        | none => true
        | some s => descMatches s t.description))

/-- `GET /transactions` (`get_transactions`): filter by owner plus the
optional filters, sort by date descending, cap at 1000 records. -/
def getTransactions (uid : String) (q : TxQuery) (db : List Transaction) :
    List Transaction :=
  (pySorted (fun a b => DateTime.leb b.date a.date)
    (txFilter uid q db)).take 1000

/-- `DELETE /transactions/{transaction_id}` (`delete_transaction`):
`delete_one` on id + owner, 404 if `deleted_count == 0`. -/
def deleteTransaction (uid tid : String) (db : List Transaction) :
    Except HttpError (List Transaction) :=
  let q := fun t : Transaction => t.id == tid && t.user_id == uid
  if (db.find? q).isSome then .ok (removeFirst q db) else .error 404

/-! ## Auth (`register`, `/me`) -/

/-- `User` model (the stored document, including the password hash). -/
structure User where
  id : String
  email : String
  password_hash : String
  name : String
  created_at : DateTime
deriving DecidableEq

/-- `UserCreate` request body. -/
structure UserCreate where
  email : String
  password : String
  name : String
deriving DecidableEq

/-- `UserResponse` model: its declared fields are exactly
id, email, name, created_at. -/
structure UserResponse where
  id : String
  email : String
  name : String
  created_at : DateTime
deriving DecidableEq

/-- `UserResponse(**user.dict())`: pydantic keeps only the declared fields,
silently dropping `password_hash`. -/
def userResponse (u : User) : UserResponse :=
  { id := u.id, email := u.email, name := u.name, created_at := u.created_at }

/-- A JSON field value of a serialized response body. -/
inductive RespVal where
  | s (v : String)
  | t (v : DateTime)
deriving DecidableEq

/-- The serialized body of a `UserResponse`: its key/value pairs. -/
def UserResponse.fields (r : UserResponse) : List (String × RespVal) :=
  [("id", .s r.id), ("email", .s r.email), ("name", .s r.name),
   ("created_at", .t r.created_at)]

/-- `POST /register`: 400 if a user with the email exists, otherwise insert
`User(email, password_hash := hashed, name)` (with server-generated id and
creation time) and return `UserResponse(**user.dict())`. -/
def register (users : List User) (d : UserCreate) (hashed newId : String)
    (now : DateTime) : Except HttpError (List User × UserResponse) :=
  if (users.find? (fun u => u.email == d.email)).isSome then .error 400
  else
    let u : User := { id := newId, email := d.email, password_hash := hashed,
                      name := d.name, created_at := now }
    .ok (users ++ [u], userResponse u)

/-- `GET /me` (`get_current_user_info`): `UserResponse(**current_user.dict())`. -/
def meResponse (u : User) : UserResponse := userResponse u

/-! ## Analytics aggregator -/

/-- Python dict update `d[k] = d.get(k, 0) + v`: add to the entry of an
existing key (keeping its position) or append a new key at the end. -/
def upsertAdd (k : TransactionCategory) (v : ℚ) :
    List (TransactionCategory × ℚ) → List (TransactionCategory × ℚ)
  | [] => [(k, v)]
  | (k2, v2) :: rest =>
    if k2 = k then (k2, v2 + v) :: rest else (k2, v2) :: upsertAdd k v rest

/-- Python `d.get(k, 0)` on the association-list model of a dict. -/
def lookupD : List (TransactionCategory × ℚ) → TransactionCategory → ℚ
  | [], _ => 0
  | p :: rest, k => if p.1 = k then p.2 else lookupD rest k

/-- Group a transaction list by category, summing amounts
(the `category_totals` loop of `get_spending_report`). -/
def groupByCategory (ts : List Transaction) : List (TransactionCategory × ℚ) :=
  ts.foldl (fun acc t => upsertAdd t.category t.amount acc) []

/-- The `GET /dashboard/summary` response body. -/
structure DashboardSummary where
  net_worth : ℚ
  monthly_income : ℚ
  monthly_expenses : ℚ
  cash_flow : ℚ
  total_assets : ℚ
  total_liabilities : ℚ
  expense_breakdown : List (TransactionCategory × ℚ)
deriving DecidableEq

/-- `GET /dashboard/summary` (`get_dashboard_summary`): current-calendar-month
transactions of the caller, income/expense sums, asset/liability totals,
net worth, cash flow and the per-category expense breakdown. -/
def getDashboardSummary (uid : String) (now : DateTime)
    (txsDb : List Transaction) (assetsDb : List Asset)
    (liabsDb : List Liability) : DashboardSummary :=
  let m := now.date.month
  let y := now.date.year
  let transactions := txsDb.filter fun t =>
    t.user_id == uid && t.date.date.month == m && t.date.date.year == y
  let monthly_income :=
    ((transactions.filter fun t => t.type == TransactionType.income).map
      (·.amount)).sum
  let monthly_expenses :=
    ((transactions.filter fun t => t.type == TransactionType.expense).map
      (·.amount)).sum
  let assets := assetsDb.filter fun a => a.user_id == uid
  let liabilities := liabsDb.filter fun l => l.user_id == uid
  let total_assets := (assets.map (·.current_value)).sum
  let total_liabilities := (liabilities.map (·.amount_owed)).sum
  let expense_breakdown := transactions.foldl
    (fun acc t =>
      if t.type == TransactionType.expense then upsertAdd t.category t.amount acc
      else acc) []
  { net_worth := total_assets - total_liabilities
    monthly_income := monthly_income
    monthly_expenses := monthly_expenses
    cash_flow := monthly_income - monthly_expenses
    total_assets := total_assets
    total_liabilities := total_liabilities
    expense_breakdown := expense_breakdown }

/-- English month name, Python `strftime("%B")`. -/
def monthName : Nat → String
  | 1 => "January"
  | 2 => "February"
  | 3 => "March"
  | 4 => "April"
  | 5 => "May"
  | 6 => "June"
  | 7 => "July"
  | 8 => "August"
  | 9 => "September"
  | 10 => "October"
  | 11 => "November"
  | 12 => "December"
  | _ => ""

/-- Python `strftime("%Y-%m")`. -/
def fmtYM (d : Date) : String :=
  toString d.year ++ "-" ++
    (if d.month < 10 then "0" ++ toString d.month else toString d.month)

/-- Python `strftime("%B %Y")`. -/
def fmtMonthYear (d : Date) : String :=
  monthName d.month ++ " " ++ toString d.year

/-- One row of the cash-flow report. -/
structure CashflowEntry where
  month : String
  month_name : String
  income : ℚ
  expenses : ℚ
  net : ℚ
deriving DecidableEq

/-- The day number of step `i` of the cash-flow report:
`datetime.now().replace(day=1) - timedelta(days = i*30)`. -/
def cashflowTargetDays (now : DateTime) (i : Nat) : Nat :=
  (Date.mk now.date.year now.date.month 1).toDays - 30 * i

/-- The raw per-step cash-flow entry (newest first, `i = 0` is the current
month): transactions of the caller in the calendar month/year of the
stepped-back date, with income/expense/net sums and the month labels. -/
def cashflowRaw (uid : String) (now : DateTime) (db : List Transaction)
    (i : Nat) : CashflowEntry :=
  let td := Date.fromDays (cashflowTargetDays now i)
  let transactions := db.filter fun t =>
    t.user_id == uid && t.date.date.month == td.month &&
      t.date.date.year == td.year
  let income :=
    ((transactions.filter fun t => t.type == TransactionType.income).map
      (·.amount)).sum
  let expenses :=
    ((transactions.filter fun t => t.type == TransactionType.expense).map
      (·.amount)).sum
  { month := fmtYM td
    month_name := fmtMonthYear td
    income := income
    expenses := expenses
    net := income - expenses }

/-- `GET /reports/cashflow` (`get_cashflow_report`): the 12 per-step rows,
computed newest-first and reversed before returning. -/
def getCashflowReport (uid : String) (now : DateTime)
    (db : List Transaction) : List CashflowEntry :=
  ((List.range 12).map (cashflowRaw uid now db)).reverse

/-- One row of the spending report. -/
structure CategoryRow where
  category : TransactionCategory
  amount : ℚ
  percentage : ℚ
deriving DecidableEq

/-- The `GET /reports/spending` response body (`date_range` carries the
resolved start/end). -/
structure SpendingReport where
  total_spent : ℚ
  categories : List CategoryRow
  range_start : DateTime
  range_end : DateTime
deriving DecidableEq

/-- The row list of the spending report.  In the source each row computes
`amount / sum(category_totals.values()) * 100 if category_totals else 0`
inside a comprehension over `category_totals.items()`: the `else 0` branch
is unreachable (the guard is dict non-emptiness, and rows are only built
for a non-empty dict), so a non-empty dict whose values sum to 0 raises
`ZeroDivisionError`, modelled as `none`. -/
def spendingRows (totals : List (TransactionCategory × ℚ)) :
    Option (List CategoryRow) :=
  let total := (totals.map Prod.snd).sum
  if totals.isEmpty then some []
  else if total = 0 then none
  else some (totals.map fun p => ⟨p.1, p.2, p.2 / total * 100⟩)

/-- `GET /reports/spending` (`get_spending_report`) with resolved date
range `[s, e]`: the caller's expense transactions in range, grouped by
category, with per-category percentage of the total, sorted by descending
amount (Python `sorted(..., reverse=True)` is stable). -/
def getSpendingReport (uid : String) (s e : DateTime)
    (db : List Transaction) : Option SpendingReport :=
  let txs := db.filter fun t =>
    t.user_id == uid && t.type == TransactionType.expense &&
      DateTime.leb s t.date && DateTime.leb t.date e
  let totals := groupByCategory txs
  match spendingRows totals with
  | none => none
  | some rows =>
    some { total_spent := (totals.map Prod.snd).sum
           categories := pySorted (fun a b => decide (b.amount ≤ a.amount)) rows
           range_start := s
           range_end := e }

/-! ## Concrete fixtures used by the claim theorems -/

/-- A concrete monthly template: 100.00 "Rent" (housing) recurring monthly
since 2025-01-15. -/
def c1Template : Transaction :=
  { id := "t1"
    user_id := "u"
    type := .expense
    amount := 100
    description := "Rent"
    category := .housing
    date := ⟨⟨2025, 1, 15⟩, 0⟩
    is_recurring := true
    frequency := some "monthly"
    recurring_start_date := some ⟨⟨2025, 1, 15⟩, 0⟩
    created_at := ⟨⟨2025, 1, 15⟩, 0⟩ }

/-- A concrete weekly template: as `c1Template` but weekly since
2025-03-01. -/
def c2Tmpl : Transaction :=
  { c1Template with
    frequency := some "weekly"
    recurring_start_date := some ⟨⟨2025, 3, 1⟩, 0⟩ }

/-- A concrete template lacking `recurring_start_date`. -/
def c7Tmpl : Transaction :=
  { c1Template with recurring_start_date := none }

/-- A concrete asset owned by user "A". -/
def c6Asset : Asset :=
  { id := "a1", user_id := "A", description := "car", current_value := 9000,
    created_at := ⟨⟨2025, 1, 1⟩, 0⟩, updated_at := ⟨⟨2025, 1, 1⟩, 0⟩ }

/-- A concrete non-recurring transaction owned by user "A". -/
def c8Tx : Transaction :=
  { c1Template with
    id := "x1"
    user_id := "A"
    is_recurring := false
    frequency := none
    recurring_start_date := none }

/-- A concrete zero-amount expense inside the report range. -/
def c3ZeroTx : Transaction :=
  { id := "z1"
    user_id := "u"
    type := .expense
    amount := 0
    description := "freebie"
    category := .food
    date := ⟨⟨2025, 3, 10⟩, 0⟩
    is_recurring := false
    frequency := none
    recurring_start_date := none
    created_at := ⟨⟨2025, 3, 10⟩, 0⟩ }

/-- A concrete positive expense inside the report range. -/
def c3PosTx : Transaction :=
  { c3ZeroTx with id := "p1", amount := 50 }

/-! ## Helper lemmas -/

/-- A weekly template steps to an insertion exactly when the day difference
is a non-negative multiple of 7; the collection state is not consulted. -/
lemma processTemplate_weekly (today : Date) (tmpl : Transaction)
    (rsd : DateTime) (st : List Transaction × Nat)
    (hfreq : tmpl.frequency = some "weekly")
    (hrsd : tmpl.recurring_start_date = some rsd) :
    processTemplate today st tmpl =
      if 0 ≤ Date.daysDiff today rsd.date ∧
          Date.daysDiff today rsd.date % 7 = 0 then
        (st.1 ++ [newInstance today tmpl], st.2 + 1)
      else st := by
  by_cases hc : 0 ≤ Date.daysDiff today rsd.date ∧
      Date.daysDiff today rsd.date % 7 = 0
  · simp [processTemplate, hrsd, hfreq, hc]
  · simp [processTemplate, hrsd, hfreq, hc]

/-- `updateFirst` keeps the first match in place: if `p` finds `a` first and
`f` preserves `p`, then after the update `p` finds `f a` first. -/
lemma find?_updateFirst (p : α → Bool) (f : α → α)
    (hpf : ∀ x, p x = true → p (f x) = true) :
    ∀ (l : List α) (a : α), l.find? p = some a →
      (updateFirst p f l).find? p = some (f a) := by
  intro l
  induction l with
  | nil => intro a h; simp at h
  | cons x xs ih =>
    intro a h
    cases hx : p x with
    | true =>
      rw [List.find?_cons_of_pos _ hx] at h
      cases h
      simp [updateFirst, hx, List.find?_cons_of_pos _ (hpf x hx)]
    | false =>
      have hnot : ¬(p x = true) := by simp [hx]
      rw [List.find?_cons_of_neg _ hnot] at h
      simp only [updateFirst, if_neg hnot]
      rw [List.find?_cons_of_neg _ hnot]
      exact ih a h

/-- The behaviour of the common PUT-endpoint shape: 404 when nothing
matches, otherwise the first matching record is replaced by its `setf`
image, which is also what the re-read returns. -/
lemma mongoUpdate_spec {α : Type} (q : α → Bool) (setf : α → α)
    (hq : ∀ x, q x = true → q (setf x) = true) (db : List α) :
    (db.find? q = none → mongoUpdate q setf db = .error 404) ∧
    (∀ a, db.find? q = some a →
      mongoUpdate q setf db = .ok (updateFirst q setf db, setf a)) := by
  constructor
  · intro h
    simp [mongoUpdate, h]
  · intro a h
    have h2 := find?_updateFirst q setf hq db a h
    simp [mongoUpdate, h, h2]

/-- A fold that skips elements failing `p` is the fold over the filtered
list. -/
lemma foldl_skip_filter {α β : Type} (p : α → Bool) (g : β → α → β) :
    ∀ (l : List α) (acc : β),
      l.foldl (fun a t => if p t then g a t else a) acc =
        (l.filter p).foldl g acc := by
  intro l
  induction l with
  | nil => intro acc; rfl
  | cons x xs ih =>
    intro acc
    cases hx : p x with
    | true => simp [List.filter_cons, hx, ih]
    | false => simp [List.filter_cons, hx, ih]

/-- `pyInsert` permutes a cons. -/
lemma pyInsert_perm (le : α → α → Bool) (x : α) :
    ∀ l : List α, (pyInsert le x l).Perm (x :: l) := by
  intro l
  induction l with
  | nil => exact List.Perm.refl _
  | cons y ys ih =>
    cases hxy : le x y with
    | true => simp [pyInsert, hxy]
    | false =>
      simp only [pyInsert, hxy, Bool.false_eq_true, if_false]
      exact (ih.cons y).trans (List.Perm.swap x y ys)

/-- `pySorted` is a permutation of its input. -/
lemma pySorted_perm (le : α → α → Bool) :
    ∀ l : List α, (pySorted le l).Perm l := by
  intro l
  induction l with
  | nil => exact List.Perm.refl _
  | cons x xs ih =>
    exact (pyInsert_perm le x (pySorted le xs)).trans (ih.cons x)

/-- Looking up after a dict upsert: the updated key gains `v`, others are
unchanged. -/
lemma lookupD_upsertAdd (k k2 : TransactionCategory) (v : ℚ) :
    ∀ (acc : List (TransactionCategory × ℚ)),
      lookupD (upsertAdd k v acc) k2 =
        if k2 = k then lookupD acc k2 + v else lookupD acc k2 := by
  intro acc
  induction acc with
  | nil =>
    by_cases h : k2 = k
    · subst h; simp [upsertAdd, lookupD]
    · have h' : ¬k = k2 := fun hh => h hh.symm
      simp [upsertAdd, lookupD, h, h']
  | cons p rest ih =>
    obtain ⟨k1, v1⟩ := p
    by_cases h1 : k1 = k
    · subst h1
      by_cases h2 : k2 = k1
      · subst h2; simp [upsertAdd, lookupD]
      · have h2' : ¬k1 = k2 := fun hh => h2 hh.symm
        simp [upsertAdd, lookupD, h2, h2']
    · by_cases h2 : k1 = k2
      · subst h2
        simp [upsertAdd, lookupD, h1]
      · simp [upsertAdd, lookupD, h1, h2, ih]

/-- The sum of dict values after an upsert grows by the added amount. -/
lemma valuesSum_upsertAdd (k : TransactionCategory) (v : ℚ) :
    ∀ (acc : List (TransactionCategory × ℚ)),
      ((upsertAdd k v acc).map Prod.snd).sum =
        (acc.map Prod.snd).sum + v := by
  intro acc
  induction acc with
  | nil => simp [upsertAdd]
  | cons p rest ih =>
    obtain ⟨k1, v1⟩ := p
    by_cases h1 : k1 = k
    · subst h1
      simp only [upsertAdd, eq_self_iff_true, if_true, List.map_cons,
        List.sum_cons]
      ring
    · simp only [upsertAdd, if_neg h1, List.map_cons, List.sum_cons, ih]
      ring

/-- Looking a category up in the grouped sums built by folding `upsertAdd`
yields the sum of the matching amounts. -/
lemma lookupD_fold_upsert :
    ∀ (l : List Transaction) (acc : List (TransactionCategory × ℚ))
      (k : TransactionCategory),
      lookupD (l.foldl (fun a t => upsertAdd t.category t.amount a) acc) k =
        lookupD acc k +
          ((l.filter fun t => t.category == k).map (·.amount)).sum := by
  intro l
  induction l with
  | nil => simp
  | cons t rest ih =>
    intro acc k
    simp only [List.foldl_cons]
    rw [ih, lookupD_upsertAdd]
    by_cases h : t.category = k
    · simp [List.filter_cons, h]
      ring
    · have h' : ¬k = t.category := fun hh => h hh.symm
      simp [List.filter_cons, h, h']

/-- The total of the grouped sums is the total of the amounts. -/
lemma valuesSum_fold_upsert :
    ∀ (l : List Transaction) (acc : List (TransactionCategory × ℚ)),
      (((l.foldl (fun a t => upsertAdd t.category t.amount a) acc)).map
          Prod.snd).sum =
        (acc.map Prod.snd).sum + (l.map (·.amount)).sum := by
  intro l
  induction l with
  | nil => simp
  | cons t rest ih =>
    intro acc
    simp only [List.foldl_cons]
    rw [ih, valuesSum_upsertAdd]
    simp only [List.map_cons, List.sum_cons]
    ring

/-- The percentage rows built for a non-empty category map with non-zero
total. -/
lemma spendingRows_of_ne (totals : List (TransactionCategory × ℚ))
    (hne : totals ≠ []) (hT : (totals.map Prod.snd).sum ≠ 0) :
    spendingRows totals = some (totals.map fun p =>
      ⟨p.1, p.2, p.2 / (totals.map Prod.snd).sum * 100⟩) := by
  have hempty : totals.isEmpty = false := by
    cases totals with
    | nil => exact absurd rfl hne
    | cons x xs => rfl
  simp only [spendingRows, hempty, Bool.false_eq_true, if_false, if_neg hT]

/-! ## Claim theorems -/


/-- C1: the claim says a second same-day invocation of the materializer
creates zero additional monthly instances.  On the code it creates another
one: the duplicate guard queries for the template's unsuffixed description
("Rent"), but instances are stored with the " (Recurring)" suffix, so the
guard never sees them.  Evaluated at `c1Template` on 2025-03-15 (day 15 of
a later month, no prior instance): the first sweep creates one instance and
the second sweep creates one more, leaving three records. -/
theorem c1_monthly_second_run_duplicates :
    (processRecurring ⟨2025, 3, 15⟩ [c1Template]).2 = 1 ∧
    (processRecurring ⟨2025, 3, 15⟩
        (processRecurring ⟨2025, 3, 15⟩ [c1Template]).1).2 = 1 ∧
    (processRecurring ⟨2025, 3, 15⟩
        (processRecurring ⟨2025, 3, 15⟩ [c1Template]).1).1.length = 3 ∧
    (processRecurring ⟨2025, 3, 15⟩ [c1Template]).1 =
      [c1Template, newInstance ⟨2025, 3, 15⟩ c1Template] := by
  refine ⟨by decide, by decide, by decide, by decide⟩

/-- C2: a weekly template with a start date qualifies exactly when
`(today - start).days` is non-negative and an exact multiple of 7 — the
decision never consults the collection, so there is no duplicate guard —
and repeated invocations on the same qualifying day each append another
instance (the second sweep creates one more, leaving two instances). -/
theorem c2_weekly_qualify_and_duplicate (today : Date) (tmpl : Transaction)
    (rsd : DateTime) (db : List Transaction) (c : Nat)
    (hfreq : tmpl.frequency = some "weekly")
    (hrsd : tmpl.recurring_start_date = some rsd) :
    ((0 ≤ Date.daysDiff today rsd.date ∧
        Date.daysDiff today rsd.date % 7 = 0) →
      processTemplate today (db, c) tmpl =
        (db ++ [newInstance today tmpl], c + 1)) ∧
    (¬(0 ≤ Date.daysDiff today rsd.date ∧
        Date.daysDiff today rsd.date % 7 = 0) →
      processTemplate today (db, c) tmpl = (db, c)) ∧
    (tmpl.is_recurring = true →
      (0 ≤ Date.daysDiff today rsd.date ∧
        Date.daysDiff today rsd.date % 7 = 0) →
      (processRecurring today [tmpl]).2 = 1 ∧
      (processRecurring today (processRecurring today [tmpl]).1).2 = 1 ∧
      (processRecurring today (processRecurring today [tmpl]).1).1 =
        [tmpl, newInstance today tmpl, newInstance today tmpl]) := by
  refine ⟨?_, ?_, ?_⟩
  · intro hc
    rw [processTemplate_weekly today tmpl rsd (db, c) hfreq hrsd, if_pos hc]
  · intro hc
    rw [processTemplate_weekly today tmpl rsd (db, c) hfreq hrsd, if_neg hc]
  · intro hrec hc
    have hstep1 : processRecurring today [tmpl] =
        ([tmpl] ++ [newInstance today tmpl], 1) := by
      simp only [processRecurring, List.filter_cons, hrec, List.filter_nil,
        if_true, List.foldl_cons, List.foldl_nil]
      rw [processTemplate_weekly today tmpl rsd ([tmpl], 0) hfreq hrsd,
        if_pos hc]
    have hinst : (newInstance today tmpl).is_recurring = false := rfl
    have hstep2 : processRecurring today [tmpl, newInstance today tmpl] =
        ([tmpl, newInstance today tmpl] ++ [newInstance today tmpl], 1) := by
      simp only [processRecurring, List.filter_cons, hrec, hinst,
        List.filter_nil, if_true, Bool.false_eq_true, if_false,
        List.foldl_cons, List.foldl_nil]
      rw [processTemplate_weekly today tmpl rsd
        ([tmpl, newInstance today tmpl], 0) hfreq hrsd, if_pos hc]
    rw [hstep1]
    refine ⟨rfl, ?_, ?_⟩
    · simp only [List.cons_append, List.nil_append] at hstep2 ⊢
      rw [hstep2]
    · simp only [List.cons_append, List.nil_append] at hstep2 ⊢
      rw [hstep2]


/-- Witness for C2 at a concrete input: a weekly template started
2025-03-01, swept on 2025-03-15 (day difference 14): each of two sweeps
creates one instance. -/
theorem c2_weekly_qualify_and_duplicate_witness :
    (processRecurring ⟨2025, 3, 15⟩ [c2Tmpl]).2 = 1 ∧
    (processRecurring ⟨2025, 3, 15⟩
        (processRecurring ⟨2025, 3, 15⟩ [c2Tmpl]).1).2 = 1 := by
  have h := (c2_weekly_qualify_and_duplicate ⟨2025, 3, 15⟩ c2Tmpl
      ⟨⟨2025, 3, 1⟩, 0⟩ [] 0 rfl rfl).2.2 rfl (by decide)
  exact ⟨h.1, h.2.1⟩

/-- C7: a qualifying template spawns exactly one instance carrying the
template's user, type, amount and category, the description suffixed with
" (Recurring)", today's date at midnight and `is_recurring = false`; each
loop iteration either leaves the state unchanged or appends exactly this
one instance, and a template lacking `recurring_start_date` is skipped
without error (the sweep returns the collection unchanged and count 0). -/
theorem c7_instance_shape_and_skip (today : Date) (tmpl : Transaction) :
    (newInstance today tmpl).user_id = tmpl.user_id ∧
    (newInstance today tmpl).type = tmpl.type ∧
    (newInstance today tmpl).amount = tmpl.amount ∧
    (newInstance today tmpl).category = tmpl.category ∧
    (newInstance today tmpl).description =
      tmpl.description ++ " (Recurring)" ∧
    (newInstance today tmpl).date = DateTime.midnight today ∧
    (newInstance today tmpl).is_recurring = false ∧
    (∀ st : List Transaction × Nat,
      processTemplate today st tmpl = st ∨
      processTemplate today st tmpl =
        (st.1 ++ [newInstance today tmpl], st.2 + 1)) ∧
    (tmpl.recurring_start_date = none →
      (∀ st : List Transaction × Nat, processTemplate today st tmpl = st) ∧
      (tmpl.is_recurring = true →
        processRecurring today [tmpl] = ([tmpl], 0))) := by
  refine ⟨rfl, rfl, rfl, rfl, rfl, rfl, rfl, ?_, ?_⟩
  · intro st
    have hbool : ∀ (b : Bool) (A : List Transaction × Nat),
        (if b = true then A else st) = st ∨
        (if b = true then A else st) = A := by
      intro b A
      cases b
      · exact Or.inl rfl
      · exact Or.inr rfl
    simp only [processTemplate]
    cases tmpl.recurring_start_date with
    | none => exact Or.inl rfl
    | some rsd => exact hbool _ _
  · intro hnone
    have hskip : ∀ st : List Transaction × Nat,
        processTemplate today st tmpl = st := by
      intro st
      simp only [processTemplate, hnone]
    refine ⟨hskip, ?_⟩
    intro hrec
    simp only [processRecurring, List.filter_cons, hrec, List.filter_nil,
      if_true, List.foldl_cons, List.foldl_nil, hskip]


/-- Witness for C7: a template without a start date is skipped silently on
a concrete sweep. -/
theorem c7_instance_shape_and_skip_witness :
    processRecurring ⟨2025, 3, 15⟩ [c7Tmpl] = ([c7Tmpl], 0) := by
  exact ((c7_instance_shape_and_skip ⟨2025, 3, 15⟩
    c7Tmpl).2.2.2.2.2.2.2.2 rfl).2 rfl

/-- C9: every materialized instance has `frequency = none`,
`recurring_start_date = none` and `is_recurring = false`, hence it is never
among the templates the materializer scans (`is_recurring = true`) and can
never spawn further instances. -/
theorem c9_instance_never_a_template (today : Date) (tmpl : Transaction)
    (db : List Transaction) :
    (newInstance today tmpl).frequency = none ∧
    (newInstance today tmpl).recurring_start_date = none ∧
    (newInstance today tmpl).is_recurring = false ∧
    newInstance today tmpl ∉ db.filter (·.is_recurring) := by
  refine ⟨rfl, rfl, rfl, ?_⟩
  intro hmem
  have h := (List.mem_filter.mp hmem).2
  simp [newInstance] at h

/-- C6: each existing update endpoint (Asset, Liability, SavingsGoal —
Budget and Debt expose no update route in the source) replaces the owned
record matched by id with the submitted fields plus a refreshed
`updated_at` (id, owner and creation time preserved), returns exactly that
record, and fails with 404 when no record matches id + owner. -/
theorem c6_update_replace_refresh_404 :
    (∀ (db : List Asset) (uid aid : String) (d : AssetCreate)
       (now : DateTime),
      ((db.find? fun a => a.id == aid && a.user_id == uid) = none →
        updateAsset db uid aid d now = .error 404) ∧
      (∀ a, (db.find? fun a => a.id == aid && a.user_id == uid) = some a →
        updateAsset db uid aid d now =
          .ok (updateFirst (fun a => a.id == aid && a.user_id == uid)
                (fun a =>
                  { a with
                    description := d.description
                    current_value := d.current_value
                    updated_at := now }) db,
              { a with
                description := d.description
                current_value := d.current_value
                updated_at := now }))) ∧
    (∀ (db : List Liability) (uid lid : String) (d : LiabilityCreate)
       (now : DateTime),
      ((db.find? fun a => a.id == lid && a.user_id == uid) = none →
        updateLiability db uid lid d now = .error 404) ∧
      (∀ a, (db.find? fun a => a.id == lid && a.user_id == uid) = some a →
        updateLiability db uid lid d now =
          .ok (updateFirst (fun a => a.id == lid && a.user_id == uid)
                (fun a =>
                  { a with
                    description := d.description
                    amount_owed := d.amount_owed
                    updated_at := now }) db,
              { a with
                description := d.description
                amount_owed := d.amount_owed
                updated_at := now }))) ∧
    (∀ (db : List SavingsGoal) (uid gid : String) (d : SavingsGoalCreate)
       (now : DateTime),
      ((db.find? fun a => a.id == gid && a.user_id == uid) = none →
        updateSavingsGoal db uid gid d now = .error 404) ∧
      (∀ a, (db.find? fun a => a.id == gid && a.user_id == uid) = some a →
        updateSavingsGoal db uid gid d now =
          .ok (updateFirst (fun a => a.id == gid && a.user_id == uid)
                (fun a =>
                  { a with
                    goal_name := d.goal_name
                    target_amount := d.target_amount
                    current_amount := d.current_amount
                    updated_at := now }) db,
              { a with
                goal_name := d.goal_name
                target_amount := d.target_amount
                current_amount := d.current_amount
                updated_at := now }))) := by
  refine ⟨?_, ?_, ?_⟩
  · intro db uid aid d now
    exact mongoUpdate_spec (fun a : Asset => a.id == aid && a.user_id == uid)
      (fun a =>
        { a with
          description := d.description
          current_value := d.current_value
          updated_at := now })
      (fun x hx => hx) db
  · intro db uid lid d now
    exact mongoUpdate_spec
      (fun a : Liability => a.id == lid && a.user_id == uid)
      (fun a =>
        { a with
          description := d.description
          amount_owed := d.amount_owed
          updated_at := now })
      (fun x hx => hx) db
  · intro db uid gid d now
    exact mongoUpdate_spec
      (fun a : SavingsGoal => a.id == gid && a.user_id == uid)
      (fun a =>
        { a with
          goal_name := d.goal_name
          target_amount := d.target_amount
          current_amount := d.current_amount
          updated_at := now })
      (fun x hx => hx) db


/-- Witness for C6 at concrete inputs: updating a missing asset yields 404;
updating `c6Asset` replaces its mutable fields and refreshes
`updated_at`. -/
theorem c6_update_replace_refresh_404_witness :
    updateAsset [] "A" "a1" ⟨"car", 8000⟩ ⟨⟨2025, 2, 1⟩, 0⟩ = .error 404 ∧
    updateAsset [c6Asset] "A" "a1" ⟨"car", 8000⟩ ⟨⟨2025, 2, 1⟩, 0⟩ =
      .ok ([{ c6Asset with
              current_value := 8000
              updated_at := ⟨⟨2025, 2, 1⟩, 0⟩ }],
           { c6Asset with
             current_value := 8000
             updated_at := ⟨⟨2025, 2, 1⟩, 0⟩ }) := by
  constructor
  · exact (c6_update_replace_refresh_404.1 [] "A" "a1"
      ⟨"car", 8000⟩ ⟨⟨2025, 2, 1⟩, 0⟩).1 rfl
  · have h := (c6_update_replace_refresh_404.1 [c6Asset] "A" "a1"
      ⟨"car", 8000⟩ ⟨⟨2025, 2, 1⟩, 0⟩).2 c6Asset (by decide)
    rw [h]
    rfl

/-- C8: tenant isolation.  Every transaction returned by the list endpoint
belongs to the caller; deleting a transaction that only exists under
another owner fails with 404 (exactly as if absent); updating an asset that
only exists under another owner fails with 404. -/
theorem c8_tenant_isolation :
    (∀ (uid : String) (q : TxQuery) (db : List Transaction)
       (t : Transaction), t ∈ getTransactions uid q db → t.user_id = uid) ∧
    (∀ (uidA uidB tid : String) (db : List Transaction),
      uidB ≠ uidA → (∀ t ∈ db, t.id = tid → t.user_id = uidA) →
      deleteTransaction uidB tid db = .error 404) ∧
    (∀ (uidA uidB aid : String) (db : List Asset) (d : AssetCreate)
       (now : DateTime),
      uidB ≠ uidA → (∀ a ∈ db, a.id = aid → a.user_id = uidA) →
      updateAsset db uidB aid d now = .error 404) := by
  refine ⟨?_, ?_, ?_⟩
  · intro uid q db t ht
    simp only [getTransactions] at ht
    have h1 := List.take_subset _ _ ht
    have h2 := (pySorted_perm _ _).subset h1
    have h3 := (List.mem_filter.mp h2).2
    simp only [Bool.and_eq_true, beq_iff_eq] at h3
    exact h3.1.1.1.1
  · intro uidA uidB tid db hne hown
    have hnone :
        db.find? (fun t => t.id == tid && t.user_id == uidB) = none := by
      rw [List.find?_eq_none]
      intro t htmem
      simp only [Bool.and_eq_true, beq_iff_eq, not_and]
      intro hid huser
      exact hne (huser.symm.trans (hown t htmem hid))
    simp [deleteTransaction, hnone]
  · intro uidA uidB aid db d now hne hown
    have hnone :
        db.find? (fun a : Asset => a.id == aid && a.user_id == uidB) =
          none := by
      rw [List.find?_eq_none]
      intro a hamem
      simp only [Bool.and_eq_true, beq_iff_eq, not_and]
      intro hid huser
      exact hne (huser.symm.trans (hown a hamem hid))
    exact (mongoUpdate_spec
      (fun a : Asset => a.id == aid && a.user_id == uidB)
      (fun a =>
        { a with
          description := d.description
          current_value := d.current_value
          updated_at := now })
      (fun x hx => hx) db).1 hnone


/-- Witness for C8 at concrete inputs: the list endpoint returns only the
caller's records; user "B" can neither delete "A"'s transaction nor update
"A"'s asset (404 in both cases). -/
theorem c8_tenant_isolation_witness :
    c8Tx.user_id = "A" ∧
    deleteTransaction "B" "x1" [c8Tx] = .error 404 ∧
    updateAsset [c6Asset] "B" "a1" ⟨"car", 1⟩ ⟨⟨2025, 2, 1⟩, 0⟩ =
      .error 404 := by
  refine ⟨?_, ?_, ?_⟩
  · exact c8_tenant_isolation.1 "A" ⟨none, none, none, none⟩ [c8Tx] c8Tx
      (by decide)
  · exact c8_tenant_isolation.2.1 "A" "B" "x1" [c8Tx] (by decide) (by decide)
  · exact c8_tenant_isolation.2.2 "A" "B" "a1" [c6Asset] ⟨"car", 1⟩
      ⟨⟨2025, 2, 1⟩, 0⟩ (by decide) (by decide)

/-- C10: the serialized `/register` and `/me` responses consist of exactly
the fields id, email, name, created_at; the stored password hash is never
among them — the response is unchanged under any change of the stored
hash, and a successful registration's response is built from the request
and server-generated values only. -/
theorem c10_response_excludes_hash :
    (∀ r : UserResponse,
      r.fields.map Prod.fst = ["id", "email", "name", "created_at"] ∧
      "password_hash" ∉ r.fields.map Prod.fst) ∧
    (∀ (u : User) (h : String),
      userResponse { u with password_hash := h } = userResponse u) ∧
    (∀ u : User, meResponse u =
      { id := u.id, email := u.email, name := u.name,
        created_at := u.created_at }) ∧
    (∀ (users : List User) (d : UserCreate) (hashed newId : String)
       (now : DateTime) (st : List User) (resp : UserResponse),
      register users d hashed newId now = .ok (st, resp) →
      resp = { id := newId, email := d.email, name := d.name,
               created_at := now } ∧
      resp.fields = [("id", .s newId), ("email", .s d.email),
        ("name", .s d.name), ("created_at", .t now)]) := by
  refine ⟨?_, ?_, ?_, ?_⟩
  · intro r
    refine ⟨rfl, ?_⟩
    rw [show r.fields.map Prod.fst = ["id", "email", "name", "created_at"]
      from rfl]
    decide
  · intro u h
    rfl
  · intro u
    rfl
  · intro users d hashed newId now st resp h
    simp only [register] at h
    split at h
    · exact absurd h (by simp)
    · rw [Except.ok.injEq, Prod.mk.injEq] at h
      rw [← h.2]
      exact ⟨rfl, rfl⟩

/-- Witness for C10: registering a concrete user returns a response whose
serialized body is exactly the four public fields. -/
theorem c10_response_excludes_hash_witness :
    ({ id := "u1", email := "a@x.com", name := "A",
       created_at := ⟨⟨2025, 1, 1⟩, 0⟩ } : UserResponse).fields =
      [("id", .s "u1"), ("email", .s "a@x.com"), ("name", .s "A"),
       ("created_at", .t ⟨⟨2025, 1, 1⟩, 0⟩)] := by
  have hreg : register [] ⟨"a@x.com", "p", "A"⟩ "hh" "u1" ⟨⟨2025, 1, 1⟩, 0⟩ =
      .ok ([{ id := "u1", email := "a@x.com", password_hash := "hh",
              name := "A", created_at := ⟨⟨2025, 1, 1⟩, 0⟩ }],
           { id := "u1", email := "a@x.com", name := "A",
             created_at := ⟨⟨2025, 1, 1⟩, 0⟩ }) := by rfl
  exact (c10_response_excludes_hash.2.2.2 [] ⟨"a@x.com", "p", "A"⟩ "hh" "u1"
    ⟨⟨2025, 1, 1⟩, 0⟩ _ _ hreg).2

/-- C4: the cash-flow report always returns exactly 12 entries; the
returned list is exactly the reverse of the newest-first per-step
computation; and (whenever "today" is not within a year of the calendar
origin, as any real clock value is) the stepped-back day numbers strictly
decrease, so the reversed list runs oldest to newest. -/
theorem c4_cashflow_length_and_order (uid : String) (now : DateTime)
    (db : List Transaction) :
    (getCashflowReport uid now db).length = 12 ∧
    getCashflowReport uid now db =
      ((List.range 12).map (cashflowRaw uid now db)).reverse ∧
    (360 ≤ (Date.mk now.date.year now.date.month 1).toDays →
      ∀ i, i + 1 < 12 →
        cashflowTargetDays now (i + 1) < cashflowTargetDays now i) := by
  refine ⟨?_, rfl, ?_⟩
  · simp [getCashflowReport]
  · intro hbase i hi
    simp only [cashflowTargetDays]
    omega

/-- Witness for C4 at a concrete clock value (October 2025). -/
theorem c4_cashflow_length_and_order_witness :
    (getCashflowReport "u" ⟨⟨2025, 10, 1⟩, 0⟩ []).length = 12 ∧
    cashflowTargetDays ⟨⟨2025, 10, 1⟩, 0⟩ 1 <
      cashflowTargetDays ⟨⟨2025, 10, 1⟩, 0⟩ 0 := by
  refine ⟨(c4_cashflow_length_and_order "u" ⟨⟨2025, 10, 1⟩, 0⟩ []).1, ?_⟩
  exact (c4_cashflow_length_and_order "u" ⟨⟨2025, 10, 1⟩, 0⟩ []).2.2
    (by decide) 0 (by decide)

/-- C5: in every dashboard summary, the asset/liability totals are the sums
over the caller's records, net worth is their difference, monthly income
and expenses are the sums over the caller's current-calendar-month
transactions of each type, cash flow is their difference, and the expense
breakdown maps each category to the summed expense amounts of the current
month (income excluded). -/
theorem c5_dashboard_summary_formulas (uid : String) (now : DateTime)
    (txsDb : List Transaction) (assetsDb : List Asset)
    (liabsDb : List Liability) (sm : DashboardSummary)
    (hsm : sm = getDashboardSummary uid now txsDb assetsDb liabsDb) :
    sm.total_assets =
      ((assetsDb.filter fun a => a.user_id == uid).map
        (·.current_value)).sum ∧
    sm.total_liabilities =
      ((liabsDb.filter fun l => l.user_id == uid).map (·.amount_owed)).sum ∧
    sm.net_worth = sm.total_assets - sm.total_liabilities ∧
    sm.monthly_income =
      ((txsDb.filter fun t =>
          t.user_id == uid && t.date.date.month == now.date.month &&
            t.date.date.year == now.date.year &&
            t.type == TransactionType.income).map (·.amount)).sum ∧
    sm.monthly_expenses =
      ((txsDb.filter fun t =>
          t.user_id == uid && t.date.date.month == now.date.month &&
            t.date.date.year == now.date.year &&
            t.type == TransactionType.expense).map (·.amount)).sum ∧
    sm.cash_flow = sm.monthly_income - sm.monthly_expenses ∧
    (∀ c, lookupD sm.expense_breakdown c =
      ((txsDb.filter fun t =>
          t.user_id == uid && t.date.date.month == now.date.month &&
            t.date.date.year == now.date.year &&
            t.type == TransactionType.expense && t.category == c).map
        (·.amount)).sum) := by
  subst hsm
  have hand : ∀ (b1 b2 b3 : Bool), ((b1 && b2) && b3) = ((b3 && b2) && b1) :=
    by decide
  refine ⟨rfl, rfl, rfl, ?_, ?_, rfl, ?_⟩
  · show ((List.filter (fun t => t.type == TransactionType.income)
        (List.filter (fun t =>
          t.user_id == uid && t.date.date.month == now.date.month &&
            t.date.date.year == now.date.year) txsDb)).map
      fun t : Transaction => t.amount).sum = _
    rw [List.filter_filter]
    have hfe : List.filter (fun t : Transaction =>
        (t.type == TransactionType.income) &&
          (t.user_id == uid && t.date.date.month == now.date.month &&
            t.date.date.year == now.date.year)) txsDb =
      List.filter (fun t : Transaction =>
        t.user_id == uid && t.date.date.month == now.date.month &&
          t.date.date.year == now.date.year &&
          t.type == TransactionType.income) txsDb :=
      List.filter_congr fun x _ => Bool.and_comm _ _
    rw [hfe]
  · show ((List.filter (fun t => t.type == TransactionType.expense)
        (List.filter (fun t =>
          t.user_id == uid && t.date.date.month == now.date.month &&
            t.date.date.year == now.date.year) txsDb)).map
      fun t : Transaction => t.amount).sum = _
    rw [List.filter_filter]
    have hfe : List.filter (fun t : Transaction =>
        (t.type == TransactionType.expense) &&
          (t.user_id == uid && t.date.date.month == now.date.month &&
            t.date.date.year == now.date.year)) txsDb =
      List.filter (fun t : Transaction =>
        t.user_id == uid && t.date.date.month == now.date.month &&
          t.date.date.year == now.date.year &&
          t.type == TransactionType.expense) txsDb :=
      List.filter_congr fun x _ => Bool.and_comm _ _
    rw [hfe]
  · intro c
    show lookupD
      ((List.filter (fun t =>
          t.user_id == uid && t.date.date.month == now.date.month &&
            t.date.date.year == now.date.year) txsDb).foldl
        (fun acc t =>
          if t.type == TransactionType.expense then
            upsertAdd t.category t.amount acc
          else acc) []) c = _
    rw [foldl_skip_filter
      (fun t : Transaction => t.type == TransactionType.expense)
      (fun (acc : List (TransactionCategory × ℚ)) (t : Transaction) =>
        upsertAdd t.category t.amount acc),
      lookupD_fold_upsert]
    simp only [lookupD, zero_add]
    rw [List.filter_filter, List.filter_filter]
    have hfe : List.filter (fun t : Transaction =>
        ((t.category == c) && (t.type == TransactionType.expense)) &&
          (t.user_id == uid && t.date.date.month == now.date.month &&
            t.date.date.year == now.date.year)) txsDb =
      List.filter (fun t : Transaction =>
        t.user_id == uid && t.date.date.month == now.date.month &&
          t.date.date.year == now.date.year &&
          t.type == TransactionType.expense && t.category == c) txsDb :=
      List.filter_congr fun x _ => hand _ _ _
    rw [hfe]

/-- Witness for C5 at a concrete input: with no records, the asset total of
the dashboard summary is 0. -/
theorem c5_dashboard_summary_formulas_witness :
    (getDashboardSummary "u" ⟨⟨2025, 1, 1⟩, 0⟩ [] [] []).total_assets =
      0 := by
  exact ((c5_dashboard_summary_formulas "u" ⟨⟨2025, 1, 1⟩, 0⟩ [] [] [] _
    rfl).1).trans rfl


/-- C3 (amended): in the spending report each category's percentage is
`amount / total * 100`; whenever the total is non-zero the report is
defined, the category amounts sum to `total_spent` and the percentages sum
to exactly 100.  When no expense rows fall in the range the category list
is empty (so no percentage exists and no division happens).  But the
zero-total guard of the source tests emptiness of the category map, not
the total: when expense rows exist and their amounts sum to 0 the
computation divides by zero (`ZeroDivisionError`, modelled `none`) instead
of defining the percentages as 0. -/
theorem c3_spending_report_amended (uid : String) (s e : DateTime)
    (db : List Transaction) (totals : List (TransactionCategory × ℚ))
    (htotals : totals = groupByCategory (db.filter fun t =>
      t.user_id == uid && t.type == TransactionType.expense &&
        DateTime.leb s t.date && DateTime.leb t.date e)) :
    ((totals.map Prod.snd).sum ≠ 0 →
      ∃ r, getSpendingReport uid s e db = some r ∧
        r.total_spent = (totals.map Prod.snd).sum ∧
        (r.categories.map CategoryRow.amount).sum = r.total_spent ∧
        (r.categories.map CategoryRow.percentage).sum = 100 ∧
        ∀ row ∈ r.categories,
          row.percentage = row.amount / r.total_spent * 100) ∧
    (totals = [] →
      getSpendingReport uid s e db =
        some { total_spent := 0, categories := [], range_start := s,
               range_end := e }) ∧
    (totals ≠ [] → (totals.map Prod.snd).sum = 0 →
      getSpendingReport uid s e db = none) := by
  have hunfold : getSpendingReport uid s e db =
      match spendingRows totals with
      | none => none
      | some rows =>
        some { total_spent := (totals.map Prod.snd).sum
               categories :=
                 pySorted (fun a b => decide (b.amount ≤ a.amount)) rows
               range_start := s
               range_end := e } := by
    rw [htotals]
    rfl
  refine ⟨?_, ?_, ?_⟩
  · intro hT
    have hne : totals ≠ [] := by
      intro h0
      rw [h0] at hT
      simp at hT
    have hrows := spendingRows_of_ne totals hne hT
    refine ⟨{ total_spent := (totals.map Prod.snd).sum
              categories :=
                pySorted (fun a b => decide (b.amount ≤ a.amount))
                  (totals.map fun p =>
                    ⟨p.1, p.2, p.2 / (totals.map Prod.snd).sum * 100⟩)
              range_start := s
              range_end := e }, ?_, rfl, ?_, ?_, ?_⟩
    · rw [hunfold, hrows]
    · have hperm := ((pySorted_perm
        (fun a b : CategoryRow => decide (b.amount ≤ a.amount))
        (totals.map fun p =>
          ⟨p.1, p.2, p.2 / (totals.map Prod.snd).sum * 100⟩)).map
        CategoryRow.amount).sum_eq
      rw [hperm, List.map_map]
      rfl
    · have hperm := ((pySorted_perm
        (fun a b : CategoryRow => decide (b.amount ≤ a.amount))
        (totals.map fun p =>
          ⟨p.1, p.2, p.2 / (totals.map Prod.snd).sum * 100⟩)).map
        CategoryRow.percentage).sum_eq
      rw [hperm, List.map_map]
      have hfun : (CategoryRow.percentage ∘
          fun p : TransactionCategory × ℚ =>
            (⟨p.1, p.2, p.2 / (totals.map Prod.snd).sum * 100⟩ :
              CategoryRow)) =
          fun p : TransactionCategory × ℚ =>
            p.2 * (100 / (totals.map Prod.snd).sum) := by
        funext p
        show p.2 / (totals.map Prod.snd).sum * 100 = _
        ring
      rw [hfun, List.sum_map_mul_right, mul_comm, div_mul_cancel₀ _ hT]
    · intro row hrow
      have hmem := (pySorted_perm
        (fun a b : CategoryRow => decide (b.amount ≤ a.amount)) _).subset
        hrow
      obtain ⟨p, hp, hpe⟩ := List.mem_map.mp hmem
      rw [← hpe]
  · intro h0
    rw [hunfold, h0]
    rfl
  · intro hne hT
    have hempty : totals.isEmpty = false := by
      cases totals with
      | nil => exact absurd rfl hne
      | cons x xs => rfl
    rw [hunfold]
    simp [spendingRows, hempty, hT]


/-- Counterexample to C3 as stated: a single zero-amount expense gives a
non-empty category map whose total is 0, and the spending report raises a
division-by-zero error (`none`) instead of defining the percentage as 0. -/
theorem c3_spending_zero_total_raises :
    groupByCategory ([c3ZeroTx].filter fun t =>
      t.user_id == "u" && t.type == TransactionType.expense &&
        DateTime.leb ⟨⟨2025, 3, 1⟩, 0⟩ t.date &&
        DateTime.leb t.date ⟨⟨2025, 3, 31⟩, 0⟩) =
      [(TransactionCategory.food, 0)] ∧
    getSpendingReport "u" ⟨⟨2025, 3, 1⟩, 0⟩ ⟨⟨2025, 3, 31⟩, 0⟩ [c3ZeroTx] =
      none := by
  have h2 : groupByCategory ([c3ZeroTx].filter fun t =>
      t.user_id == "u" && t.type == TransactionType.expense &&
        DateTime.leb ⟨⟨2025, 3, 1⟩, 0⟩ t.date &&
        DateTime.leb t.date ⟨⟨2025, 3, 31⟩, 0⟩) =
      [(TransactionCategory.food, 0)] := rfl
  have h3 : spendingRows [(TransactionCategory.food, (0 : ℚ))] = none := by
    simp [spendingRows]
  refine ⟨h2, ?_⟩
  show (match spendingRows (groupByCategory ([c3ZeroTx].filter fun t =>
      t.user_id == "u" && t.type == TransactionType.expense &&
        DateTime.leb ⟨⟨2025, 3, 1⟩, 0⟩ t.date &&
        DateTime.leb t.date ⟨⟨2025, 3, 31⟩, 0⟩)) with
    | none => (none : Option SpendingReport)
    | some rows =>
      some { total_spent := ((groupByCategory ([c3ZeroTx].filter fun t =>
               t.user_id == "u" && t.type == TransactionType.expense &&
                 DateTime.leb ⟨⟨2025, 3, 1⟩, 0⟩ t.date &&
                 DateTime.leb t.date ⟨⟨2025, 3, 31⟩, 0⟩)).map
               Prod.snd).sum
             categories :=
               pySorted (fun a b => decide (b.amount ≤ a.amount)) rows
             range_start := ⟨⟨2025, 3, 1⟩, 0⟩
             range_end := ⟨⟨2025, 3, 31⟩, 0⟩ }) = none
  rw [h2, h3]


/-- Witness for C3 (amended) at a concrete input with positive total: the
report is defined. -/
theorem c3_spending_report_amended_witness :
    (getSpendingReport "u" ⟨⟨2025, 3, 1⟩, 0⟩ ⟨⟨2025, 3, 31⟩, 0⟩
      [c3PosTx]).isSome = true := by
  obtain ⟨r, hr, _⟩ := (c3_spending_report_amended "u" ⟨⟨2025, 3, 1⟩, 0⟩
    ⟨⟨2025, 3, 31⟩, 0⟩ [c3PosTx] [(TransactionCategory.food, 50)]
    (by rfl)).1 (by norm_num)
  rw [hr]
  rfl

end Aurum
